import Mathlib

/-!
Verification of the workload reconciliation state machine and the event
delivery pipeline of the apptrail agent.

The definitions below are a shallow embedding of the Go sources:
- `internal/reconciler/workload.go` (the three workload adapters),
- `internal/reconciler/workload_reconciler.go` (`ReconcileWorkload`,
  `determineWorkloadPhase`, `refreshWorkloadMetrics`),
- `internal/hooks/notifications.go` (`EventPublisherQueue.Loop`),
- `internal/hooks/pubsub/pubsub.go` (`PubSubPublisher.Publish` and the
  `ResourceEventPublisherQueue` batcher).

Go `time.Time` values are modelled as `Nat` nanosecond timestamps with `0`
playing the role of the zero value (`IsZero`), and `time.Duration` values as
`Int` nanosecond counts, so `time.Since(t)` at instant `now` is
`(now : Int) - (t : Int)`.  Go maps with string keys are modelled as
association lists whose reads return the zero value on a missing key, exactly
like a Go map index expression.  Side effects of one reconciliation pass
(channel sends, CRD writes, Prometheus gauge refreshes, requeue requests) are
collected in an explicit output record.
-/

namespace Agent

/-! ## Workload phase constants (workload_reconciler.go lines 377-385) -/

def phaseRollingOut : String := "rolling_out"

def phaseFailed : String := "failed"

def phaseSuccess : String := "success"

def phaseProgressing : String := "progressing"

/-- One minute in nanoseconds, Go `time.Minute`. -/
def minuteNs : Int := 60000000000

/-- The fixed rollout budget, Go `15 * time.Minute`. -/
def rolloutTimeoutNs : Int := 15 * minuteNs

/-- Requeue delay while rolling out, Go `1 * time.Minute` as nanoseconds. -/
def requeueDelayNs : Nat := 60000000000

/-! ## Go map model: association lists with zero-value reads -/

/-- Reading a Go map: the stored value, or the zero value `d` when absent. -/
def mapGet {α : Type} (m : List (String × α)) (k : String) (d : α) : α :=
  match m with
  | [] => d
  | (k', v) :: rest => if k' = k then v else mapGet rest k d

/-- Writing a Go map entry (insert or overwrite). -/
def mapSet {α : Type} (m : List (String × α)) (k : String) (v : α) : List (String × α) :=
  match m with
  | [] => [(k, v)]
  | (k', v') :: rest => if k' = k then (k, v) :: rest else (k', v') :: mapSet rest k v

/-! ## Workload adapters (workload.go)

Replica counters are Go `int32` values; they are modelled as `Int`
(no arithmetic is performed on them, only comparisons, so no wrap-around
can be observed). -/

structure DeploymentCondition where
  condType : String
  status : String
  reason : String
deriving DecidableEq

structure DeploymentSpec where
  replicas : Option Int
deriving DecidableEq

structure DeploymentStatus where
  replicas : Int
  readyReplicas : Int
  updatedReplicas : Int
  availableReplicas : Int
  conditions : List DeploymentCondition
deriving DecidableEq

structure Deployment where
  name : String
  nspace : String
  labels : List (String × String)
  spec : DeploymentSpec
  status : DeploymentStatus
deriving DecidableEq

/-- `DeploymentAdapter.GetVersion`: the version label or empty. -/
def Deployment.getVersion (d : Deployment) : String :=
  mapGet d.labels "app.kubernetes.io/version" ""

/-- `DeploymentAdapter.IsRollingOut` (workload.go lines 55-58): compares the
updated and ready counters against `Status.Replicas`. -/
def Deployment.isRollingOut (d : Deployment) : Bool :=
  decide (d.status.updatedReplicas < d.status.replicas) ||
    decide (d.status.readyReplicas < d.status.replicas)

/-- `DeploymentAdapter.HasFailed` (workload.go lines 60-73): scans the status
conditions; a `Progressing` condition with status `"False"` or reason
`"ProgressDeadlineExceeded"` means failure. -/
def Deployment.hasFailed (d : Deployment) : Bool :=
  d.status.conditions.any fun c =>
    c.condType == "Progressing" && (c.status == "False" || c.reason == "ProgressDeadlineExceeded")

structure StatefulSetSpec where
  replicas : Option Int
deriving DecidableEq

structure StatefulSetStatus where
  replicas : Int
  readyReplicas : Int
  updatedReplicas : Int
  availableReplicas : Int
deriving DecidableEq

structure StatefulSet where
  name : String
  nspace : String
  labels : List (String × String)
  spec : StatefulSetSpec
  status : StatefulSetStatus
deriving DecidableEq

def StatefulSet.getVersion (s : StatefulSet) : String :=
  mapGet s.labels "app.kubernetes.io/version" ""

/-- `StatefulSetAdapter.IsRollingOut` (workload.go lines 124-133): compares the
updated and ready counters against the declared `Spec.Replicas`; a nil pointer
means not rolling out. -/
def StatefulSet.isRollingOut (s : StatefulSet) : Bool :=
  match s.spec.replicas with
  | none => false
  | some desiredReplicas =>
    decide (s.status.updatedReplicas < desiredReplicas) ||
      decide (s.status.readyReplicas < desiredReplicas)

/-- `StatefulSetAdapter.HasFailed` (workload.go lines 135-139): always false. -/
def StatefulSet.hasFailed (_ : StatefulSet) : Bool := false

structure DaemonSetStatus where
  desiredNumberScheduled : Int
  numberReady : Int
  updatedNumberScheduled : Int
  numberAvailable : Int
deriving DecidableEq

structure DaemonSet where
  name : String
  nspace : String
  labels : List (String × String)
  status : DaemonSetStatus
deriving DecidableEq

def DaemonSet.getVersion (d : DaemonSet) : String :=
  mapGet d.labels "app.kubernetes.io/version" ""

/-- `DaemonSetAdapter.IsRollingOut` (workload.go lines 191-195): compares the
updated and ready counters against `Status.DesiredNumberScheduled`. -/
def DaemonSet.isRollingOut (d : DaemonSet) : Bool :=
  decide (d.status.updatedNumberScheduled < d.status.desiredNumberScheduled) ||
    decide (d.status.numberReady < d.status.desiredNumberScheduled)

/-- `DaemonSetAdapter.HasFailed` (workload.go lines 197-201): always false. -/
def DaemonSet.hasFailed (_ : DaemonSet) : Bool := false

/-- `behind` captures "updated or ready count is behind the desired count". -/
def behindCount (updated ready desired : Int) : Bool :=
  decide (updated < desired) || decide (ready < desired)

/-- Modelled from the claim's words (spec section 4.1): the desired count taken
as the declared replica count of the Deployment spec, defaulting to 1 when the
pointer is nil as Kubernetes does.  This is the comparison definition for the
refinement claim about `IsRollingOut`; the source definition is
`Deployment.isRollingOut` above. -/
def claimDeclaredDesiredCount (d : Deployment) : Int :=
  match d.spec.replicas with
  | some n => n
  | none => 1

/-- Modelled from the claim's words: a Deployment is rolling out when updated
or ready is behind the declared (spec) replica count. -/
def claimDeploymentIsRollingOut (d : Deployment) : Bool :=
  behindCount d.status.updatedReplicas d.status.readyReplicas (claimDeclaredDesiredCount d)

/-- Modelled from the claim's words (spec section 4.1): the resource reports an
explicit progress-deadline-exceeded condition. -/
def Deployment.reportsProgressDeadlineExceeded (d : Deployment) : Bool :=
  d.status.conditions.any fun c => c.reason == "ProgressDeadlineExceeded"

/-! ## The reconciler's view of a workload

`ReconcileWorkload` and `determineWorkloadPhase` only consult a workload
through the `WorkloadAdapter` interface; `WorkloadView` records the results
of those interface calls. -/

structure WorkloadView where
  name : String
  nspace : String
  kind : String
  version : String
  labels : List (String × String)
  isRollingOut : Bool
  hasFailed : Bool
  totalReplicas : Int
  readyReplicas : Int
  updatedReplicas : Int
deriving DecidableEq

def Deployment.toView (d : Deployment) : WorkloadView :=
  ⟨d.name, d.nspace, "Deployment", d.getVersion, d.labels, d.isRollingOut, d.hasFailed,
    d.status.replicas, d.status.readyReplicas, d.status.updatedReplicas⟩

def StatefulSet.toView (s : StatefulSet) : WorkloadView :=
  ⟨s.name, s.nspace, "StatefulSet", s.getVersion, s.labels, s.isRollingOut, s.hasFailed,
    s.status.replicas, s.status.readyReplicas, s.status.updatedReplicas⟩

def DaemonSet.toView (d : DaemonSet) : WorkloadView :=
  ⟨d.name, d.nspace, "DaemonSet", d.getVersion, d.labels, d.isRollingOut, d.hasFailed,
    d.status.desiredNumberScheduled, d.status.numberReady, d.status.updatedNumberScheduled⟩

/-! ## Reconciler state (workload_reconciler.go lines 403-421) -/

/-- In-memory per-key version state, Go struct `AppVersion`. -/
structure AppVersion where
  previousVersion : String
  currentVersion : String
  lastUpdated : Nat
  rolloutStarted : Nat
deriving DecidableEq

/-- The Go zero value of `AppVersion`, returned by a map miss. -/
def AppVersion.zero : AppVersion := ⟨"", "", 0, 0⟩

/-- Durable per-key state loaded from the CRD, Go struct `RolloutState`
(workload_reconciler.go lines 688-693). -/
structure RolloutState where
  rolloutStarted : Nat
  lastSentVersion : String
  lastSentPhase : String
  lastSentAt : Nat
deriving DecidableEq

/-- The Go zero value of `RolloutState` (also what a not-found load returns). -/
def RolloutState.zero : RolloutState := ⟨0, "", "", 0⟩

/-- The two in-memory maps guarded by the reconciler's lock. -/
structure ReconcilerState where
  workloadVersions : List (String × AppVersion)
  workloadPhases : List (String × String)
deriving DecidableEq

/-- The record written by `saveFullRolloutStateToCRD`
(workload_reconciler.go lines 728-748), without the controller-local
bookkeeping fields. -/
structure SavedRolloutState where
  version : String
  rolloutStarted : Nat
  lastSentVersion : String
  lastSentPhase : String
deriving DecidableEq

/-- A persisted-store side effect of one pass. -/
inductive StoreOp where
  | save (key : String) (st : SavedRolloutState)
  | del (key : String)
deriving DecidableEq

/-- One call to `refreshWorkloadMetrics` (the `last_updated` label is the wall
clock at call time and is not recorded here). -/
structure MetricRefresh where
  nspace : String
  workload : String
  kind : String
  previousVersion : String
  currentVersion : String
deriving DecidableEq

/-- The event sent on the publisher channel, Go struct `model.WorkloadUpdate`
restricted to the fields `ReconcileWorkload` populates. -/
structure WorkloadUpdate where
  name : String
  nspace : String
  kind : String
  previousVersion : String
  currentVersion : String
  labels : List (String × String)
  deploymentPhase : String
deriving DecidableEq

/-- Everything one `ReconcileWorkload` pass produces. -/
structure ReconcileOutput where
  state : ReconcilerState
  events : List WorkloadUpdate
  storeOps : List StoreOp
  metricRefreshes : List MetricRefresh
  requeueAfterNs : Option Nat
deriving DecidableEq

/-! ## determineWorkloadPhase (workload_reconciler.go lines 651-685) -/

/-- `determineWorkloadPhase`: failure condition first, then the rollout check
with the 15-minute budget (the budget check is skipped while the stored
`RolloutStarted` is the zero value), then the all-replicas-ready check. -/
def determineWorkloadPhase (versions : List (String × AppVersion)) (w : WorkloadView)
    (appkey : String) (now : Nat) : String :=
  let isRollingOut := w.isRollingOut
  if w.hasFailed then phaseFailed
  else if isRollingOut then
    let stored := mapGet versions appkey AppVersion.zero
    if stored.rolloutStarted ≠ 0 ∧
        rolloutTimeoutNs < (now : Int) - (stored.rolloutStarted : Int) then phaseFailed
    else phaseRollingOut
  else if w.readyReplicas = w.totalReplicas ∧ w.updatedReplicas = w.totalReplicas then
    phaseSuccess
  else phaseProgressing

/-- The phase as a function of the stored rollout-start value alone; the
map-reading `determineWorkloadPhase` is definitionally this function applied to
the map entry's `rolloutStarted`. -/
def phaseFor (w : WorkloadView) (rolloutStarted : Nat) (now : Nat) : String :=
  if w.hasFailed then phaseFailed
  else if w.isRollingOut then
    if rolloutStarted ≠ 0 ∧ rolloutTimeoutNs < (now : Int) - (rolloutStarted : Int) then
      phaseFailed
    else phaseRollingOut
  else if w.readyReplicas = w.totalReplicas ∧ w.updatedReplicas = w.totalReplicas then
    phaseSuccess
  else phaseProgressing

/-! ## ReconcileWorkload (workload_reconciler.go lines 443-629) -/

/-- Outcome of the load-from-CRD block (workload_reconciler.go lines 469-495):
the loaded record (zero valued if no load happened or the load failed), the
possibly reseeded local `stored` and `lastPhase`, and the map state after the
reseeding writes. -/
structure LoadOutcome where
  crdState : RolloutState
  stored : AppVersion
  lastPhase : String
  state : ReconcilerState
deriving DecidableEq

/-- The load-from-CRD block: runs only when the in-memory rollout timer is the
zero value; on a successful load it seeds `stored.rolloutStarted` and the phase
cache from the record.  `loadResult` is the store's answer (`Except.error` for
an I/O failure, which the code logs and ignores). -/
def applyCRDLoad (appkey : String) (loadResult : Except Unit RolloutState)
    (stored : AppVersion) (lastPhase : String) (s : ReconcilerState) : LoadOutcome :=
  if stored.rolloutStarted = 0 then
    match loadResult with
    | .error _ => ⟨RolloutState.zero, stored, lastPhase, s⟩
    | .ok crd =>
      let o1 : AppVersion × ReconcilerState :=
        if crd.rolloutStarted ≠ 0 then
          let st := { stored with rolloutStarted := crd.rolloutStarted }
          (st, { s with workloadVersions := mapSet s.workloadVersions appkey st })
        else (stored, s)
      let o2 : String × ReconcilerState :=
        if crd.lastSentPhase ≠ "" ∧ lastPhase = "" then
          (crd.lastSentPhase,
            { o1.2 with workloadPhases := mapSet o1.2.workloadPhases appkey crd.lastSentPhase })
        else (lastPhase, o1.2)
      ⟨crd, o1.1, o2.1, o2.2⟩
  else ⟨RolloutState.zero, stored, lastPhase, s⟩

/-- One `ReconcileWorkload` pass.  `shouldWatch` is the namespace filter's
verdict, `loadResult` the persisted store's answer if consulted, `now` the
wall clock of this pass. -/
def reconcileWorkload (shouldWatch : Bool) (w : WorkloadView)
    (loadResult : Except Unit RolloutState) (now : Nat)
    (s : ReconcilerState) : ReconcileOutput :=
  if shouldWatch = false then
    ⟨s, [], [], [], none⟩
  else
    let appkey := w.nspace ++ "/" ++ w.name ++ "/" ++ w.kind
    let stored0 := mapGet s.workloadVersions appkey AppVersion.zero
    let lastPhase0 := mapGet s.workloadPhases appkey ""
    if w.version = "" then
      ⟨s, [], [], [], none⟩
    else
      let L := applyCRDLoad appkey loadResult stored0 lastPhase0 s
      let stored := L.stored
      let lastPhase := L.lastPhase
      let s1 := L.state
      let currentPhase := determineWorkloadPhase s1.workloadVersions w appkey now
      if L.crdState.lastSentVersion ≠ "" ∧ L.crdState.lastSentVersion = w.version ∧
          L.crdState.lastSentPhase = currentPhase then
        -- restart dedup: suppress the event, refresh metrics, seed the caches
        let previousVersion :=
          if stored.previousVersion = "" then L.crdState.lastSentVersion
          else stored.previousVersion
        let s2 :=
          if stored.currentVersion ≠ w.version then
            let st := { stored with currentVersion := w.version, previousVersion := L.crdState.lastSentVersion }
            { s1 with workloadVersions := mapSet s1.workloadVersions appkey st }
          else s1
        let s3 := { s2 with workloadPhases := mapSet s2.workloadPhases appkey currentPhase }
        ⟨s3, [], [], [⟨w.nspace, w.name, w.kind, previousVersion, w.version⟩],
          if currentPhase = phaseRollingOut then some requeueDelayNs else none⟩
      else
        -- rollout timing side effects
        let timing : AppVersion × Bool :=
          if currentPhase = phaseRollingOut ∧ stored.rolloutStarted = 0 then
            ({ stored with rolloutStarted := now }, true)
          else if currentPhase ≠ phaseRollingOut ∧ stored.rolloutStarted ≠ 0 then
            ({ stored with rolloutStarted := 0 }, false)
          else (stored, false)
        let stored2 := timing.1
        let needsPersistence := timing.2
        if stored.currentVersion ≠ w.version ∨ lastPhase ≠ currentPhase then
          let upd : AppVersion × ReconcilerState × List MetricRefresh :=
            if stored.currentVersion ≠ w.version then
              let newAV : AppVersion := ⟨stored2.currentVersion, w.version, now, stored2.rolloutStarted⟩
              (newAV, { s1 with workloadVersions := mapSet s1.workloadVersions appkey newAV },
                [⟨w.nspace, w.name, w.kind, newAV.previousVersion, w.version⟩])
            else
              (stored2, { s1 with workloadVersions := mapSet s1.workloadVersions appkey stored2 }, [])
          let stored3 := upd.1
          let s2 := upd.2.1
          let s3 := { s2 with workloadPhases := mapSet s2.workloadPhases appkey currentPhase }
          ⟨s3,
            [⟨w.name, w.nspace, w.kind, stored3.previousVersion, w.version, w.labels, currentPhase⟩],
            [StoreOp.save appkey ⟨w.version, stored3.rolloutStarted, w.version, currentPhase⟩],
            upd.2.2,
            if currentPhase = phaseRollingOut then some requeueDelayNs else none⟩
        else if needsPersistence then
          ⟨s1, [],
            [StoreOp.save appkey ⟨w.version, stored2.rolloutStarted, w.version, currentPhase⟩],
            [],
            if currentPhase = phaseRollingOut then some requeueDelayNs else none⟩
        else
          ⟨s1, [], [], [],
            if currentPhase = phaseRollingOut then some requeueDelayNs else none⟩

/-! ## Version gauge (workload_reconciler.go lines 387-398 and 631-649)

The Prometheus gauge vector is modelled by the set of its active series,
each series identified by its full label tuple. -/

/-- The full label tuple of one `apptrail_app_version` series. -/
structure SeriesLabels where
  nspace : String
  workload : String
  kind : String
  previousVersion : String
  currentVersion : String
  lastUpdated : String
deriving DecidableEq

/-- The partial key `(namespace, workload, kind)` used by
`DeletePartialMatch`. -/
structure WorkloadGroup where
  nspace : String
  workload : String
  kind : String
deriving DecidableEq

/-- Whether a series matches the partial key. -/
def inGroup (k : SeriesLabels) (g : WorkloadGroup) : Bool :=
  k.nspace == g.nspace && k.workload == g.workload && k.kind == g.kind

/-- `appVersionGauge.DeletePartialMatch`: removes every series matching the
partial key. -/
def deletePartialMatch (gauge : List SeriesLabels) (g : WorkloadGroup) : List SeriesLabels :=
  gauge.filter fun k => !(inGroup k g)

/-- `appVersionGauge.WithLabelValues(...).Set(1)`: creates the series if it is
not yet active (the stored sample value is always 1 and is not modelled). -/
def setSeries (gauge : List SeriesLabels) (k : SeriesLabels) : List SeriesLabels :=
  if k ∈ gauge then gauge else k :: gauge

/-- `refreshWorkloadMetrics` (workload_reconciler.go lines 631-649): delete all
series with this workload's partial key, then create the one new series.  The
`last_updated` label (`time.Now()` formatted) is passed in explicitly. -/
def refreshWorkloadMetrics (gauge : List SeriesLabels) (g : WorkloadGroup)
    (previousVersion currentVersion lastUpdated : String) : List SeriesLabels :=
  let gauge := deletePartialMatch gauge g
  setSeries gauge ⟨g.nspace, g.workload, g.kind, previousVersion, currentVersion, lastUpdated⟩

/-- The number of active series matching a partial key. -/
def countFor (gauge : List SeriesLabels) (g : WorkloadGroup) : Nat :=
  (gauge.filter fun k => inGroup k g).length

/-- One gauge update as issued by the reconciler. -/
structure GaugeUpdate where
  group : WorkloadGroup
  previousVersion : String
  currentVersion : String
  lastUpdated : String
deriving DecidableEq

/-- A sequence of gauge updates applied in order. -/
def applyUpdates (gauge : List SeriesLabels) : List GaugeUpdate → List SeriesLabels
  | [] => gauge
  | u :: us =>
    applyUpdates (refreshWorkloadMetrics gauge u.group u.previousVersion u.currentVersion u.lastUpdated) us

/-- The gauge at process start: no active series. -/
def initialGauge : List SeriesLabels := []

/-! ## ResourceEventPublisherQueue batching (pubsub.go lines 212-353)

Events are abstracted to `Nat` identifiers; the flush window's length plays no
role in which flushes happen, only the order of buffer appends and timer
firings does, so a run is a list of those two actions. -/

/-- What caused a flush: the buffer reaching the maximum batch size inside
`addEvent`, or the `time.AfterFunc` flush timer firing. -/
inductive FlushTrigger where
  | size
  | timer
deriving DecidableEq

/-- One published batch together with what triggered it. -/
structure Flush where
  trigger : FlushTrigger
  batch : List Nat
deriving DecidableEq

/-- The mutex-guarded mutable state of the queue: the buffer and whether a
flush timer is pending. -/
structure BatchState where
  buffer : List Nat
  timerRunning : Bool
deriving DecidableEq

/-- `flushLocked` (pubsub.go lines 322-353): nothing happens on an empty
buffer; otherwise the pending timer is stopped, a snapshot of the buffer is
pushed to the publishers and the buffer is cleared. -/
def flushLocked (trigger : FlushTrigger) (st : BatchState) : BatchState × List Flush :=
  if st.buffer.isEmpty then (st, [])
  else (⟨[], false⟩, [⟨trigger, st.buffer⟩])

/-- `addEvent` (pubsub.go lines 297-314): append to the buffer, start the flush
timer on the first buffered event, flush immediately when the buffer has
reached the maximum batch size. -/
def addEvent (maxBatchSize : Nat) (st : BatchState) (e : Nat) : BatchState × List Flush :=
  let buffer := st.buffer ++ [e]
  let timerRunning := if buffer.length = 1 then true else st.timerRunning
  let st' : BatchState := ⟨buffer, timerRunning⟩
  if maxBatchSize ≤ buffer.length then flushLocked .size st'
  else (st', [])

/-- The `time.AfterFunc` callback: the timer is no longer pending and `flush`
runs. -/
def fireTimer (st : BatchState) : BatchState × List Flush :=
  flushLocked .timer { st with timerRunning := false }

/-- The externally visible actions driving the queue. -/
inductive BatchAction where
  | add (e : Nat)
  | timerFire
deriving DecidableEq

def stepBatch (maxBatchSize : Nat) (st : BatchState) : BatchAction → BatchState × List Flush
  | .add e => addEvent maxBatchSize st e
  | .timerFire => fireTimer st

/-- Run a sequence of actions, collecting the published batches in order. -/
def runBatcher (maxBatchSize : Nat) (st : BatchState) : List BatchAction → BatchState × List Flush
  | [] => (st, [])
  | a :: rest =>
    let r := stepBatch maxBatchSize st a
    let r2 := runBatcher maxBatchSize r.1 rest
    (r2.1, r.2 ++ r2.2)

/-! ## Ordered pub/sub publisher (pubsub.go lines 91-190) -/

/-- The publisher's configuration fields used by `Publish`. -/
structure PubSubPublisher where
  clusterID : String
  environment : String
deriving DecidableEq

/-- The fields of the `pubsub.Message` built by `Publish` that the ordering
claims are about (the serialized JSON payload is not modelled). -/
structure PubSubMessage where
  orderingKey : String
  attributes : List (String × String)
deriving DecidableEq

/-- `PubSubPublisher.Publish` (pubsub.go lines 91-190), restricted to the
message construction: the ordering key is
`fmt.Sprintf("%s/%s/%s", p.clusterID, update.Namespace, update.Name)`. -/
def PubSubPublisher.publishMessage (p : PubSubPublisher) (u : WorkloadUpdate) : PubSubMessage :=
  let orderingKey := p.clusterID ++ "/" ++ u.nspace ++ "/" ++ u.name
  let attrs := [("cluster_name", p.clusterID), ("namespace", u.nspace),
    ("workload_name", u.name), ("workload_type", u.kind), ("event_type", "deployment")]
  let attrs := if p.environment ≠ "" then attrs ++ [("environment", p.environment)] else attrs
  let attrs := if u.deploymentPhase ≠ "" then attrs ++ [("deployment_phase", u.deploymentPhase)] else attrs
  ⟨orderingKey, attrs⟩

/-! ## EventPublisherQueue drain loop (notifications.go lines 22-49)

Publishers are abstracted to `Nat` identifiers; `res` is the environment's
verdict on each `Publish` call (an `Except.error` is what the Go code logs and
otherwise ignores). -/

/-- One invocation of a publisher's `Publish` for one event. -/
structure PubCall where
  publisher : Nat
  update : WorkloadUpdate
deriving DecidableEq

/-- The inner fan-out loop for one event: every registered publisher is called
in order; an error is recorded in the log trace and the loop continues. -/
def publishOne (res : Nat → WorkloadUpdate → Except String Unit) (u : WorkloadUpdate) :
    List Nat → List PubCall × List (PubCall × String)
  | [] => ([], [])
  | p :: rest =>
    let tail := publishOne res u rest
    match res p u with
    | .ok _ => (⟨p, u⟩ :: tail.1, tail.2)
    | .error e => (⟨p, u⟩ :: tail.1, (⟨p, u⟩, e) :: tail.2)

/-- `EventPublisherQueue.Loop`: drain the queued events in arrival order,
fanning each one out to every publisher.  Returns the `Publish` calls made and
the logged failures. -/
def drainLoop (res : Nat → WorkloadUpdate → Except String Unit) (publishers : List Nat) :
    List WorkloadUpdate → List PubCall × List (PubCall × String)
  | [] => ([], [])
  | u :: rest =>
    let r := publishOne res u publishers
    let r2 := drainLoop res publishers rest
    (r.1 ++ r2.1, r.2 ++ r2.2)

/-! ## Helper lemmas -/

theorem mapGet_mapSet_self {α : Type} (m : List (String × α)) (k : String) (v d : α) :
    mapGet (mapSet m k v) k d = v := by
  induction m with
  | nil => simp [mapSet, mapGet]
  | cons p rest ih =>
    obtain ⟨k', v'⟩ := p
    by_cases h : k' = k
    · simp [mapSet, mapGet, h]
    · simp [mapSet, mapGet, h, ih]

theorem phaseFor_ne_empty (w : WorkloadView) (t now : Nat) : phaseFor w t now ≠ "" := by
  unfold phaseFor
  split_ifs <;> decide

theorem determineWorkloadPhase_eq (versions : List (String × AppVersion)) (w : WorkloadView)
    (appkey : String) (now : Nat) :
    determineWorkloadPhase versions w appkey now =
      phaseFor w (mapGet versions appkey AppVersion.zero).rolloutStarted now := rfl

/-! ## C3: missing version label -/

/-- C3: a workload whose `GetVersion()` is empty is skipped entirely: the pass
leaves the in-memory maps untouched, emits no event, performs no persisted
rollout record operation and refreshes no metric. -/
theorem missing_version_label_skips (shouldWatch : Bool) (w : WorkloadView)
    (loadResult : Except Unit RolloutState) (now : Nat) (s : ReconcilerState)
    (hv : w.version = "") :
    reconcileWorkload shouldWatch w loadResult now s = ⟨s, [], [], [], none⟩ := by
  unfold reconcileWorkload
  cases shouldWatch
  · simp
  · simp [hv]

theorem missing_version_label_skips_witness :
    (⟨"web", "prod", "Deployment", "", [], true, false, 3, 1, 1⟩ : WorkloadView).version = "" ∧
    reconcileWorkload true ⟨"web", "prod", "Deployment", "", [], true, false, 3, 1, 1⟩
        (Except.error ()) 5 ⟨[], []⟩ = ⟨⟨[], []⟩, [], [], [], none⟩ :=
  ⟨rfl, missing_version_label_skips true _ (Except.error ()) 5 ⟨[], []⟩ rfl⟩

/-! ## C10: zero RolloutStarted skips the timeout check -/

/-- C10: on a pass where the stored `RolloutStarted` for the key is the zero
value, a rolling-out, non-failed workload resolves to rolling_out for every
pass timestamp: the 15-minute elapsed check is skipped, so the phase can never
be failed by timeout. -/
theorem zero_rollout_timer_never_times_out (versions : List (String × AppVersion))
    (w : WorkloadView) (appkey : String) (now : Nat)
    (hf : w.hasFailed = false) (hr : w.isRollingOut = true)
    (h0 : (mapGet versions appkey AppVersion.zero).rolloutStarted = 0) :
    determineWorkloadPhase versions w appkey now = phaseRollingOut := by
  unfold determineWorkloadPhase
  simp [hf, hr, h0]

theorem zero_rollout_timer_never_times_out_witness :
    (⟨"web", "prod", "Deployment", "1.0.0", [], true, false, 3, 1, 1⟩ : WorkloadView).hasFailed = false ∧
    (⟨"web", "prod", "Deployment", "1.0.0", [], true, false, 3, 1, 1⟩ : WorkloadView).isRollingOut = true ∧
    (mapGet ([] : List (String × AppVersion)) "prod/web/Deployment" AppVersion.zero).rolloutStarted = 0 ∧
    determineWorkloadPhase [] ⟨"web", "prod", "Deployment", "1.0.0", [], true, false, 3, 1, 1⟩
      "prod/web/Deployment" 999999999999999 = phaseRollingOut :=
  ⟨rfl, rfl, rfl, zero_rollout_timer_never_times_out [] _ _ _ rfl rfl rfl⟩

/-! ## C2: the 15-minute rollout timeout boundary -/

/-- C2 counterexample: with `RolloutStarted` = 1 ns and a pass at timestamp
1 + 15min (which is ≥ T + 15min, the first such pass), the resolved phase is
rolling_out, not failed as the claim requires: the code's elapsed check
`elapsed > 15*time.Minute` is strict. -/
theorem rollout_timeout_boundary_counterexample :
    determineWorkloadPhase [("prod/web/Deployment", ⟨"", "1.0.0", 0, 1⟩)]
        ⟨"web", "prod", "Deployment", "1.0.0", [], true, false, 3, 1, 1⟩
        "prod/web/Deployment" 900000000001 = phaseRollingOut ∧
    phaseRollingOut ≠ phaseFailed := by
  decide

/-- C2 amended: for a rolling-out, non-failed workload whose stored
`RolloutStarted` is T ≠ 0, the resolved phase is failed exactly at passes with
timestamp strictly greater than T + 15 minutes, and rolling_out exactly at
passes with timestamp at most T + 15 minutes. -/
theorem rollout_timeout_strict_threshold (versions : List (String × AppVersion))
    (w : WorkloadView) (appkey : String) (T now : Nat)
    (hf : w.hasFailed = false) (hr : w.isRollingOut = true)
    (hT : (mapGet versions appkey AppVersion.zero).rolloutStarted = T) (hT0 : T ≠ 0) :
    (determineWorkloadPhase versions w appkey now = phaseFailed ↔
      (T : Int) + rolloutTimeoutNs < (now : Int)) ∧
    (determineWorkloadPhase versions w appkey now = phaseRollingOut ↔
      (now : Int) ≤ (T : Int) + rolloutTimeoutNs) := by
  unfold determineWorkloadPhase
  simp only [hf, hr, hT, Bool.false_eq_true, if_false, if_true]
  by_cases h : rolloutTimeoutNs < (now : Int) - (T : Int)
  · rw [if_pos ⟨hT0, h⟩]
    refine ⟨⟨fun _ => by omega, fun _ => rfl⟩,
      ⟨fun hq => absurd hq (by decide), fun hq => absurd h (by omega)⟩⟩
  · rw [if_neg fun hc => h hc.2]
    refine ⟨⟨fun hq => absurd hq (by decide), fun hq => absurd hq (by omega)⟩,
      ⟨fun _ => by omega, fun _ => rfl⟩⟩

theorem rollout_timeout_strict_threshold_witness :
    (⟨"web", "prod", "Deployment", "1.0.0", [], true, false, 3, 1, 1⟩ : WorkloadView).hasFailed = false ∧
    (mapGet [("prod/web/Deployment", (⟨"", "1.0.0", 0, 5⟩ : AppVersion))]
      "prod/web/Deployment" AppVersion.zero).rolloutStarted = 5 ∧
    determineWorkloadPhase [("prod/web/Deployment", ⟨"", "1.0.0", 0, 5⟩)]
      ⟨"web", "prod", "Deployment", "1.0.0", [], true, false, 3, 1, 1⟩
      "prod/web/Deployment" 7 = phaseRollingOut :=
  ⟨rfl, by decide,
    (rollout_timeout_strict_threshold _ _ _ 5 7 rfl rfl (by decide) (by decide)).2.mpr (by decide)⟩

/-! ## C4: the desired-count source per workload kind -/

/-- C4 counterexample: a Deployment declaring 5 replicas in its spec while its
status reports 3 total, 3 ready and 3 updated is not rolling out per the code
(which compares against `Status.Replicas`), yet under the claim's
declared-replica-count reading it would be. -/
theorem deployment_desired_count_counterexample :
    Deployment.isRollingOut ⟨"web", "prod", [], ⟨some 5⟩, ⟨3, 3, 3, 3, []⟩⟩ = false ∧
    claimDeploymentIsRollingOut ⟨"web", "prod", [], ⟨some 5⟩, ⟨3, 3, 3, 3, []⟩⟩ = true := by
  decide

/-- C4 amended: `IsRollingOut` is "updated or ready count behind the desired
count" where the desired count is the status-observed total replica count for
Deployments, the declared spec replica count for StatefulSets (a nil declared
count meaning not rolling out), and the scheduled-node count for DaemonSets. -/
theorem isRollingOut_characterization :
    (∀ d : Deployment, d.isRollingOut =
      behindCount d.status.updatedReplicas d.status.readyReplicas d.status.replicas) ∧
    (∀ s : StatefulSet, s.isRollingOut =
      match s.spec.replicas with
      | none => false
      | some desiredReplicas =>
        behindCount s.status.updatedReplicas s.status.readyReplicas desiredReplicas) ∧
    (∀ d : DaemonSet, d.isRollingOut =
      behindCount d.status.updatedNumberScheduled d.status.numberReady
        d.status.desiredNumberScheduled) :=
  ⟨fun _ => rfl, fun _ => rfl, fun _ => rfl⟩

/-! ## C5: HasFailed per workload kind -/

/-- C5 counterexample: a Deployment whose only condition is `Progressing` with
status `"False"` and a reason other than `ProgressDeadlineExceeded` has
`HasFailed() = true` although it reports no explicit
progress-deadline-exceeded condition. -/
theorem deployment_hasFailed_counterexample :
    Deployment.hasFailed ⟨"web", "prod", [], ⟨some 3⟩,
      ⟨3, 3, 3, 3, [⟨"Progressing", "False", "MinimumReplicasUnavailable"⟩]⟩⟩ = true ∧
    Deployment.reportsProgressDeadlineExceeded ⟨"web", "prod", [], ⟨some 3⟩,
      ⟨3, 3, 3, 3, [⟨"Progressing", "False", "MinimumReplicasUnavailable"⟩]⟩⟩ = false := by
  decide

/-- C5 amended: a Deployment's `HasFailed` is true exactly when some
`Progressing` condition has status `"False"` or reason
`"ProgressDeadlineExceeded"`; StatefulSet and DaemonSet `HasFailed` are
constantly false. -/
theorem hasFailed_characterization :
    (∀ d : Deployment, d.hasFailed = true ↔
      ∃ c ∈ d.status.conditions, c.condType = "Progressing" ∧
        (c.status = "False" ∨ c.reason = "ProgressDeadlineExceeded")) ∧
    (∀ s : StatefulSet, s.hasFailed = false) ∧
    (∀ d : DaemonSet, d.hasFailed = false) := by
  refine ⟨fun d => ?_, fun _ => rfl, fun _ => rfl⟩
  simp [Deployment.hasFailed, List.any_eq_true]

/-! ## C8: the pub/sub ordering key -/

/-- C8 counterexample: the ordered publisher's ordering key for an event is
cluster/namespace/name, not the cluster identity alone. -/
theorem pubsub_ordering_key_counterexample :
    (PubSubPublisher.publishMessage ⟨"cluster-1", ""⟩
        ⟨"web", "prod", "Deployment", "", "1.0.0", [], "success"⟩).orderingKey
      = "cluster-1/prod/web" ∧
    (PubSubPublisher.publishMessage ⟨"cluster-1", ""⟩
        ⟨"web", "prod", "Deployment", "", "1.0.0", [], "success"⟩).orderingKey
      ≠ "cluster-1" := by
  decide

/-- C8 amended: every published message's ordering key is
clusterID/namespace/name, so all events of one workload in one cluster share
one ordering key and ordering is guaranteed per workload within a cluster,
not per cluster. -/
theorem pubsub_ordering_key_per_workload :
    (∀ (p : PubSubPublisher) (u : WorkloadUpdate),
      (p.publishMessage u).orderingKey = p.clusterID ++ "/" ++ u.nspace ++ "/" ++ u.name) ∧
    (∀ (p : PubSubPublisher) (u1 u2 : WorkloadUpdate),
      u1.nspace = u2.nspace → u1.name = u2.name →
      (p.publishMessage u1).orderingKey = (p.publishMessage u2).orderingKey) := by
  constructor
  · intro p u; rfl
  · intro p u1 u2 h1 h2
    simp [PubSubPublisher.publishMessage, h1, h2]

theorem pubsub_ordering_key_per_workload_witness :
    (("prod" : String) = "prod") ∧ (("web" : String) = "web") ∧
    (PubSubPublisher.publishMessage ⟨"cluster-1", ""⟩
        ⟨"web", "prod", "Deployment", "", "2.0.0", [], "success"⟩).orderingKey =
      (PubSubPublisher.publishMessage ⟨"cluster-1", ""⟩
        ⟨"web", "prod", "Deployment", "1.0.0", "2.0.0", [], "rolling_out"⟩).orderingKey :=
  ⟨rfl, rfl, pubsub_ordering_key_per_workload.2 ⟨"cluster-1", ""⟩ _ _ rfl rfl⟩

/-! ## C9: publisher failure isolation -/

theorem publishOne_spec (res : Nat → WorkloadUpdate → Except String Unit)
    (u : WorkloadUpdate) (publishers : List Nat) :
    (publishOne res u publishers).1 = publishers.map (fun p => ⟨p, u⟩) ∧
    (publishOne res u publishers).2 = publishers.filterMap (fun p =>
      match res p u with
      | .ok _ => none
      | .error e => some (⟨p, u⟩, e)) := by
  induction publishers with
  | nil => exact ⟨rfl, rfl⟩
  | cons p rest ih =>
    cases h : res p u <;>
      simp [publishOne, List.filterMap_cons, h, ih.1, ih.2]

/-- C9: for every queued event and every list of registered publishers, the
drain loop invokes `Publish` on every publisher for every event in order, for
every possible pattern of publisher failures, and exactly the failing calls
are logged: no publisher error aborts the fan-out or the drain loop. -/
theorem publisher_failure_isolation (res : Nat → WorkloadUpdate → Except String Unit)
    (publishers : List Nat) (updates : List WorkloadUpdate) :
    (drainLoop res publishers updates).1 =
      updates.flatMap (fun u => publishers.map fun p => ⟨p, u⟩) ∧
    (drainLoop res publishers updates).2 =
      updates.flatMap (fun u => publishers.filterMap fun p =>
        match res p u with
        | .ok _ => none
        | .error e => some (⟨p, u⟩, e)) := by
  induction updates with
  | nil => exact ⟨rfl, rfl⟩
  | cons u rest ih =>
    refine ⟨?_, ?_⟩ <;>
      simp [drainLoop, (publishOne_spec res u publishers).1,
        (publishOne_spec res u publishers).2, ih.1, ih.2]

/-! ## C6: gauge cardinality -/

theorem inGroup_mk (g : WorkloadGroup) (pv cv lu : String) :
    inGroup ⟨g.nspace, g.workload, g.kind, pv, cv, lu⟩ g = true := by
  simp [inGroup]

theorem group_eq_of_inGroup {k : SeriesLabels} {g g' : WorkloadGroup}
    (h : inGroup k g = true) (h' : inGroup k g' = true) : g = g' := by
  simp only [inGroup, Bool.and_eq_true, beq_iff_eq] at h h'
  obtain ⟨⟨h1, h2⟩, h3⟩ := h
  obtain ⟨⟨h1', h2'⟩, h3'⟩ := h'
  cases g
  cases g'
  simp_all

theorem countFor_deletePartialMatch_self (gauge : List SeriesLabels) (g : WorkloadGroup) :
    countFor (deletePartialMatch gauge g) g = 0 := by
  induction gauge with
  | nil => rfl
  | cons k rest ih =>
    by_cases h : inGroup k g
    · simp only [deletePartialMatch, List.filter_cons, h, Bool.not_true, if_neg] at ih ⊢
      exact ih
    · simp only [deletePartialMatch, countFor, List.filter_cons, h, Bool.not_false,
        if_pos, if_neg, Bool.false_eq_true, not_false_eq_true, ite_true, ite_false] at ih ⊢
      exact ih

theorem not_mem_deletePartialMatch {k : SeriesLabels} {g : WorkloadGroup}
    (hk : inGroup k g = true) (gauge : List SeriesLabels) :
    k ∉ deletePartialMatch gauge g := by
  intro hmem
  have := List.of_mem_filter hmem
  simp [hk] at this

theorem countFor_refresh_self (gauge : List SeriesLabels) (g : WorkloadGroup)
    (pv cv lu : String) :
    countFor (refreshWorkloadMetrics gauge g pv cv lu) g = 1 := by
  unfold refreshWorkloadMetrics setSeries
  rw [if_neg (not_mem_deletePartialMatch (inGroup_mk g pv cv lu) gauge)]
  have h0 := countFor_deletePartialMatch_self gauge g
  simp [countFor, List.filter_cons, inGroup_mk] at h0 ⊢
  exact h0

theorem countFor_deletePartialMatch_ne (gauge : List SeriesLabels) {g g' : WorkloadGroup}
    (hne : g' ≠ g) : countFor (deletePartialMatch gauge g') g = countFor gauge g := by
  induction gauge with
  | nil => rfl
  | cons k rest ih =>
    by_cases h : inGroup k g
    · have h' : inGroup k g' = false := by
        by_contra hc
        exact hne (group_eq_of_inGroup (Bool.of_not_eq_false hc) h)
      simp [deletePartialMatch, countFor, List.filter_cons, h, h'] at ih ⊢
      exact ih
    · by_cases h' : inGroup k g'
      · simpa [deletePartialMatch, countFor, List.filter_cons, h, h'] using ih
      · simpa [deletePartialMatch, countFor, List.filter_cons, h, h'] using ih

theorem countFor_setSeries_notin {k : SeriesLabels} {g : WorkloadGroup}
    (hk : inGroup k g = false) (gauge : List SeriesLabels) :
    countFor (setSeries gauge k) g = countFor gauge g := by
  unfold setSeries
  by_cases hmem : k ∈ gauge
  · rw [if_pos hmem]
  · rw [if_neg hmem]
    simp [countFor, List.filter_cons, hk]

theorem countFor_refresh_ne (gauge : List SeriesLabels) {g g' : WorkloadGroup}
    (hne : g' ≠ g) (pv cv lu : String) :
    countFor (refreshWorkloadMetrics gauge g' pv cv lu) g = countFor gauge g := by
  unfold refreshWorkloadMetrics
  have hk : inGroup (⟨g'.nspace, g'.workload, g'.kind, pv, cv, lu⟩ : SeriesLabels) g = false := by
    by_contra hc
    exact hne (group_eq_of_inGroup (inGroup_mk g' pv cv lu) (Bool.of_not_eq_false hc))
  rw [countFor_setSeries_notin hk, countFor_deletePartialMatch_ne gauge hne]

theorem countFor_applyUpdates (us : List GaugeUpdate) (gauge : List SeriesLabels)
    (g : WorkloadGroup) :
    countFor (applyUpdates gauge us) g =
      if us.any (fun u => decide (u.group = g)) then 1 else countFor gauge g := by
  induction us generalizing gauge with
  | nil => simp [applyUpdates]
  | cons u us ih =>
    by_cases h : u.group = g
    · subst h
      simp [applyUpdates, ih, countFor_refresh_self]
    · simp [applyUpdates, ih, countFor_refresh_ne gauge h, h]

/-- C6: starting from the process-start gauge, after any sequence of gauge
updates the number of active `apptrail_app_version` series for a workload key
is exactly one when some update has targeted that key and zero otherwise — in
particular never more than one — because `refreshWorkloadMetrics` deletes all
series matching the partial key before creating the single new series, and
updates for other keys never touch this key's series. -/
theorem gauge_cardinality_invariant (us : List GaugeUpdate) (g : WorkloadGroup) :
    countFor (applyUpdates initialGauge us) g =
      if us.any (fun u => decide (u.group = g)) then 1 else 0 := by
  rw [countFor_applyUpdates]
  rfl

/-! ## C7: batching policy -/

set_option maxRecDepth 40000 in
/-- C7: with max batch size 100, a run of 150 buffered events followed by the
timer firing publishes exactly two batches: a size-triggered batch of the
first 100 events and a timer-triggered batch of the remaining 50.  In general
`addEvent` flushes exactly when the buffer reaches the maximum batch size, and
the timer flush publishes exactly when the buffer is non-empty. -/
theorem batching_policy :
    (runBatcher 100 ⟨[], false⟩
        ((List.range 150).map BatchAction.add ++ [BatchAction.timerFire])).2 =
      [⟨FlushTrigger.size, List.range 100⟩, ⟨FlushTrigger.timer, (List.range 150).drop 100⟩] ∧
    (∀ (maxBatchSize : Nat) (st : BatchState) (e : Nat),
      ((addEvent maxBatchSize st e).2 ≠ []) ↔ maxBatchSize ≤ st.buffer.length + 1) ∧
    (∀ st : BatchState, ((fireTimer st).2 ≠ []) ↔ st.buffer ≠ []) := by
  refine ⟨by decide, ?_, ?_⟩
  · intro maxBatchSize st e
    unfold addEvent flushLocked
    by_cases h : maxBatchSize ≤ st.buffer.length + 1
    · simp [h]
    · simp [h]
  · intro st
    unfold fireTimer flushLocked
    by_cases h : st.buffer.isEmpty
    · simp [h, List.isEmpty_iff.mp h]
    · simp [h, List.isEmpty_iff]
      intro hc
      simp [hc] at h

/-! ## C1: restart deduplication -/

/-- C1: on a pass where the in-memory state for the workload key is empty, if
the persisted record loads successfully with a non-empty `LastSentVersion`
equal to the workload's current version label and a `LastSentPhase` equal to
the phase resolved on this pass, then the pass emits no event, performs no
persisted-store write, still refreshes the version-gauge series for that key,
and seeds the in-memory version and phase caches from the record. -/
theorem restart_dedup_suppresses_event (s : ReconcilerState) (w : WorkloadView)
    (r : RolloutState) (now : Nat)
    (hv : mapGet s.workloadVersions (w.nspace ++ "/" ++ w.name ++ "/" ++ w.kind)
      AppVersion.zero = AppVersion.zero)
    (hp : mapGet s.workloadPhases (w.nspace ++ "/" ++ w.name ++ "/" ++ w.kind) "" = "")
    (hsv : r.lastSentVersion = w.version)
    (hne : r.lastSentVersion ≠ "")
    (hph : r.lastSentPhase = phaseFor w r.rolloutStarted now) :
    (reconcileWorkload true w (Except.ok r) now s).events = [] ∧
    (reconcileWorkload true w (Except.ok r) now s).storeOps = [] ∧
    (reconcileWorkload true w (Except.ok r) now s).metricRefreshes =
      [⟨w.nspace, w.name, w.kind, r.lastSentVersion, w.version⟩] ∧
    mapGet (reconcileWorkload true w (Except.ok r) now s).state.workloadVersions
        (w.nspace ++ "/" ++ w.name ++ "/" ++ w.kind) AppVersion.zero =
      ⟨r.lastSentVersion, w.version, 0, r.rolloutStarted⟩ ∧
    mapGet (reconcileWorkload true w (Except.ok r) now s).state.workloadPhases
        (w.nspace ++ "/" ++ w.name ++ "/" ++ w.kind) "" =
      phaseFor w r.rolloutStarted now := by
  have hvne : w.version ≠ "" := fun h => hne (hsv.trans h)
  have hvne' : ("" : String) ≠ w.version := fun h => hvne h.symm
  have hv' : mapGet s.workloadVersions (w.nspace ++ "/" ++ w.name ++ "/" ++ w.kind)
      (⟨"", "", 0, 0⟩ : AppVersion) = ⟨"", "", 0, 0⟩ := by
    simpa [AppVersion.zero] using hv
  by_cases h0 : r.rolloutStarted = 0
  · have hph0 : r.lastSentPhase = phaseFor w 0 now := by rw [hph, h0]
    have hout : reconcileWorkload true w (Except.ok r) now s =
        ⟨⟨mapSet s.workloadVersions (w.nspace ++ "/" ++ w.name ++ "/" ++ w.kind)
            ⟨r.lastSentVersion, w.version, 0, 0⟩,
          mapSet (mapSet s.workloadPhases (w.nspace ++ "/" ++ w.name ++ "/" ++ w.kind)
            r.lastSentPhase) (w.nspace ++ "/" ++ w.name ++ "/" ++ w.kind) (phaseFor w 0 now)⟩,
         [], [], [⟨w.nspace, w.name, w.kind, r.lastSentVersion, w.version⟩],
         if phaseFor w 0 now = phaseRollingOut then some requeueDelayNs else none⟩ := by
      simp only [reconcileWorkload, applyCRDLoad, determineWorkloadPhase_eq]
      simp [hv', hp, h0, hph0, hsv, hvne, hvne', phaseFor_ne_empty,
        AppVersion.zero, mapGet_mapSet_self]
    rw [hout]
    refine ⟨rfl, rfl, rfl, ?_, ?_⟩
    · rw [mapGet_mapSet_self, h0]
    · rw [mapGet_mapSet_self, h0]
  · have hout : reconcileWorkload true w (Except.ok r) now s =
        ⟨⟨mapSet (mapSet s.workloadVersions (w.nspace ++ "/" ++ w.name ++ "/" ++ w.kind)
            ⟨"", "", 0, r.rolloutStarted⟩) (w.nspace ++ "/" ++ w.name ++ "/" ++ w.kind)
            ⟨r.lastSentVersion, w.version, 0, r.rolloutStarted⟩,
          mapSet (mapSet s.workloadPhases (w.nspace ++ "/" ++ w.name ++ "/" ++ w.kind)
            r.lastSentPhase) (w.nspace ++ "/" ++ w.name ++ "/" ++ w.kind)
            (phaseFor w r.rolloutStarted now)⟩,
         [], [], [⟨w.nspace, w.name, w.kind, r.lastSentVersion, w.version⟩],
         if phaseFor w r.rolloutStarted now = phaseRollingOut then some requeueDelayNs
         else none⟩ := by
      simp only [reconcileWorkload, applyCRDLoad, determineWorkloadPhase_eq]
      simp [hv', hp, h0, hph, hsv, hvne, hvne', phaseFor_ne_empty,
        AppVersion.zero, mapGet_mapSet_self]
    rw [hout]
    exact ⟨rfl, rfl, rfl, by rw [mapGet_mapSet_self], by rw [mapGet_mapSet_self]⟩

theorem restart_dedup_suppresses_event_witness :
    mapGet (⟨[], []⟩ : ReconcilerState).workloadVersions "prod/web/Deployment"
      AppVersion.zero = AppVersion.zero ∧
    mapGet (⟨[], []⟩ : ReconcilerState).workloadPhases "prod/web/Deployment" "" = "" ∧
    (⟨0, "1.0.0", "success", 50⟩ : RolloutState).lastSentVersion =
      (⟨"web", "prod", "Deployment", "1.0.0", [], false, false, 3, 3, 3⟩ : WorkloadView).version ∧
    (⟨0, "1.0.0", "success", 50⟩ : RolloutState).lastSentVersion ≠ "" ∧
    (⟨0, "1.0.0", "success", 50⟩ : RolloutState).lastSentPhase =
      phaseFor ⟨"web", "prod", "Deployment", "1.0.0", [], false, false, 3, 3, 3⟩ 0 1000 ∧
    ((reconcileWorkload true ⟨"web", "prod", "Deployment", "1.0.0", [], false, false, 3, 3, 3⟩
        (Except.ok ⟨0, "1.0.0", "success", 50⟩) 1000 ⟨[], []⟩).events = [] ∧
      (reconcileWorkload true ⟨"web", "prod", "Deployment", "1.0.0", [], false, false, 3, 3, 3⟩
        (Except.ok ⟨0, "1.0.0", "success", 50⟩) 1000 ⟨[], []⟩).storeOps = [] ∧
      (reconcileWorkload true ⟨"web", "prod", "Deployment", "1.0.0", [], false, false, 3, 3, 3⟩
        (Except.ok ⟨0, "1.0.0", "success", 50⟩) 1000 ⟨[], []⟩).metricRefreshes =
        [⟨"prod", "web", "Deployment", "1.0.0", "1.0.0"⟩] ∧
      mapGet (reconcileWorkload true ⟨"web", "prod", "Deployment", "1.0.0", [], false, false, 3, 3, 3⟩
          (Except.ok ⟨0, "1.0.0", "success", 50⟩) 1000 ⟨[], []⟩).state.workloadVersions
        "prod/web/Deployment" AppVersion.zero = ⟨"1.0.0", "1.0.0", 0, 0⟩ ∧
      mapGet (reconcileWorkload true ⟨"web", "prod", "Deployment", "1.0.0", [], false, false, 3, 3, 3⟩
          (Except.ok ⟨0, "1.0.0", "success", 50⟩) 1000 ⟨[], []⟩).state.workloadPhases
        "prod/web/Deployment" "" =
        phaseFor ⟨"web", "prod", "Deployment", "1.0.0", [], false, false, 3, 3, 3⟩ 0 1000) :=
  ⟨rfl, rfl, rfl, by decide, by decide,
    restart_dedup_suppresses_event ⟨[], []⟩
      ⟨"web", "prod", "Deployment", "1.0.0", [], false, false, 3, 3, 3⟩
      ⟨0, "1.0.0", "success", 50⟩ 1000 rfl rfl rfl (by decide) (by decide)⟩

end Agent
